import Mathlib

/-!
Shallow embedding of the scoring/estimation engine of `contract/ml_services.py`
(fasaldhan-backend).  Decimals and floats are modelled as exact rationals (`ℚ`).
The trained-model files (`ml_models/price_prediction.joblib`,
`ml_models/quality_model.h5`) are not part of the repository, so `load_model`
leaves `self.model = None` in both services and every call takes the
fallback branch; that degraded mode is what is embedded here.
Fallible steps are modelled explicitly: the ORM `Crop.objects.get`, the
unbound-name error at line 396, and the `TypeError`s raised by CPython on
`Decimal * float` — the `DecimalField` columns (`price_per_quintal`,
`average_yield_per_acre`, `agreed_quantity`, `quantity_available`) are
`Decimal`s at runtime, so the mixed products at lines 118, 289 and 367-370
raise on the paths recorded at each definition.
-/

/-- Python `round(x, n)`: round to `n` decimal digits, ties to even. -/
def roundHalfEven (y : ℚ) : ℤ :=
  let f := ⌊y⌋
  let r := y - (f : ℚ)
  if r < 1/2 then f
  else if 1/2 < r then f + 1
  else if f % 2 = 0 then f else f + 1

/-- Python `round(x, n)` on exact rationals. -/
def pyRound (n : ℕ) (x : ℚ) : ℚ :=
  (roundHalfEven (x * 10 ^ n) : ℚ) / 10 ^ n

/-- Python `a or b` for a nullable numeric `a`: `b` when `a` is `None` or zero. -/
def pyOr (a : Option ℚ) (b : ℚ) : ℚ :=
  match a with
  | none => b
  | some x => if x = 0 then b else x

/-- `np.mean` of a list of rationals (callers guard against the empty list). -/
def npMean (l : List ℚ) : ℚ := l.sum / l.length

/-- Snapshot of a `Crop` row: the three nullable numeric columns the engine reads. -/
structure Crop where
  average_yield_per_acre : Option ℚ
  current_market_price : Option ℚ
  price_volatility_score : Option ℚ
deriving DecidableEq

/-- Read-only database view used by the price and yield services: crop lookup by
id (`none` plays `Crop.DoesNotExist`) and the `price_per_quintal` values of the
`MarketPrice` rows of the last 30 days for a crop. -/
structure PriceDB where
  crops : ℕ → Option Crop
  recentPrices : ℕ → List ℚ

structure PriceRange where
  min : ℚ
  max : ℚ
deriving DecidableEq

/-- The dict returned by `predict_price` / `_fallback_prediction`
(note: it carries no `method` key). -/
structure PriceResult where
  predicted_price : ℚ
  confidence : ℚ
  price_range : PriceRange
deriving DecidableEq

/-- `PricePredictionService._fallback_prediction` (lines 102-130).  The
`Crop.objects.get` lookup is not guarded, so an unknown `crop_id` raises.  With
recent records, `avg_price` is a `Decimal` (the mean of `DecimalField` values),
and `avg_price * 0.85` at line 118 raises `TypeError` before the dict is built,
so the historical-average branch raises instead of returning.  The no-records
branch only touches `Decimal * 2` and therefore completes. -/
def fallback_prediction (db : PriceDB) (crop_id : ℕ) : Except Unit PriceResult :=
  match db.crops crop_id with
  | none => .error ()
  | some crop =>
    let recent := db.recentPrices crop_id
    if recent.isEmpty then
      .ok { predicted_price := pyOr crop.current_market_price 0
            confidence := 3/10
            price_range := { min := 0, max := pyOr crop.current_market_price 0 * 2 } }
    else
      .error ()

/-- `PricePredictionService.predict_price` (lines 37-67).  With no trained model
loaded, line 41 returns `_fallback_prediction(crop_id)` unguarded, before the
`try` block; `location`, `quantity` and `season` are only used on the dead
model path. -/
def predict_price (db : PriceDB) (crop_id : ℕ) (_location : String) (_quantity : ℚ)
    (_season : String) : Except Unit PriceResult :=
  fallback_prediction db crop_id

structure HealthIndicators where
  color_uniformity : ℚ
  size_consistency : ℚ
  defect_level : ℚ
deriving DecidableEq

/-- The dict returned by `assess_quality` (no `method` key). -/
structure QualityResult where
  quality_score : ℚ
  ripeness_score : ℚ
  quality_grade : String
  health_indicators : HealthIndicators
  recommendations : List String
deriving DecidableEq

/-- `QualityAssessmentService._score_to_grade` (lines 220-231). -/
def score_to_grade (score : ℚ) : String :=
  if score ≥ 9/10 then "A+"
  else if score ≥ 8/10 then "A"
  else if score ≥ 7/10 then "B+"
  else if score ≥ 6/10 then "B"
  else "C"

/-- `QualityAssessmentService._fallback_assessment` (lines 242-254): the grade
is the literal string at line 247 and the recommendation list has one element. -/
def fallback_assessment : QualityResult :=
  { quality_score := 7/10
    ripeness_score := 7/10
    quality_grade := "B+"
    health_indicators := { color_uniformity := 7/10
                           size_consistency := 7/10
                           defect_level := 3/10 }
    recommendations := ["Manual assessment recommended."] }

/-- `QualityAssessmentService.assess_quality` (lines 177-182): with no CNN model
loaded, line 181 returns the fallback regardless of the image argument. -/
def assess_quality (_image_path : Option String) : QualityResult :=
  fallback_assessment

structure YieldFactors where
  farming_type_factor : ℚ
  location_factor : ℚ
  weather_factor : ℚ
  image_factor : ℚ
deriving DecidableEq

/-- The dict returned by `predict_yield`: on the error path (line 311) the
`yield_per_acre` and `factors` keys are absent, modelled with `none`. -/
structure YieldResult where
  predicted_yield : ℚ
  yield_per_acre : Option ℚ
  confidence : ℚ
  factors : Option YieldFactors
deriving DecidableEq

/-- The `farming_multiplier` dict lookup with default 1.0 (lines 273-278). -/
def farming_multiplier (farming_type : String) : ℚ :=
  if farming_type = "organic" then 4/5
  else if farming_type = "traditional" then 1
  else if farming_type = "hydroponic" then 3/2
  else if farming_type = "mixed" then 11/10
  else 1

/-- `YieldPredictionService._get_location_yield_factor` (lines 313-316). -/
def get_location_yield_factor (_location : String) : ℚ := 1

/-- `YieldPredictionService._get_weather_yield_factor` (lines 318-321). -/
def get_weather_yield_factor (_location : String) : ℚ := 1

/-- `YieldPredictionService._assess_crop_health_from_images` (lines 323-335):
each image is scored by `assess_quality`, which (model absent) always yields
`quality_score = 0.7`, so the mean is 0.7 for a non-empty image list. -/
def assess_crop_health_from_images (images : List Unit) : ℚ :=
  npMean (images.map fun _ => fallback_assessment.quality_score)

/-- The dict built at lines 289-308 on the only completing path of
`predict_yield`, where `base_yield` is the integer default 10 of line 270 (the
caller passes `land_size` as a float, and every factor is a float there). -/
def predict_yield_completed (land_size : ℚ) (farming_type : String) (location : String)
    (images : List Unit) : YieldResult :=
  let fm := farming_multiplier farming_type
  let location_factor := get_location_yield_factor location
  let weather_factor := get_weather_yield_factor location
  let image_factor := if images.isEmpty then 1 else assess_crop_health_from_images images
  let py := 10 * land_size * fm * location_factor * weather_factor * image_factor
  { predicted_yield := pyRound 2 py
    yield_per_acre := some (if land_size > 0 then pyRound 2 (py / land_size) else 0)
    confidence := 7/10
    factors := some { farming_type_factor := fm
                      location_factor := location_factor
                      weather_factor := weather_factor
                      image_factor := image_factor } }

/-- `YieldPredictionService.predict_yield` (lines 262-311).  The whole body sits
in a `try`: a failed crop lookup lands on the error dict of line 311, and so
does every crop whose `average_yield_per_acre` is non-null and nonzero — that
column is a `DecimalField`, so `base_yield` is then a `Decimal` and its product
with the float farming multiplier at line 289 raises `TypeError`, caught at
line 309.  The computation only completes when the `or` of line 270 replaces
the base yield by the integer default 10 (column null or zero). -/
def predict_yield (db : PriceDB) (crop_id : ℕ) (land_size : ℚ) (farming_type : String)
    (_location : String) (images : List Unit) : YieldResult :=
  match db.crops crop_id with
  | none => { predicted_yield := 0, yield_per_acre := none, confidence := 0, factors := none }
  | some crop =>
    match crop.average_yield_per_acre with
    | none => predict_yield_completed land_size farming_type _location images
    | some y =>
      if y = 0 then predict_yield_completed land_size farming_type _location images
      else { predicted_yield := 0, yield_per_acre := none, confidence := 0, factors := none }

/-- Derived view of a party's contract history: the two queryset counts read by
the reliability assessors (`filter(status=completed).count()` and `count()`). -/
structure PartyHistory where
  completed : ℕ
  total : ℕ
deriving DecidableEq

/-- Snapshot of the `listing` row a contract references. -/
structure Listing where
  crop : Crop
  quantity_available : ℚ
  farm_location : String
deriving DecidableEq

/-- Snapshot of the contract fields read by `assess_contract_risk`. -/
structure Contract where
  farmer : PartyHistory
  buyer : PartyHistory
  listing : Listing
  agreed_quantity : ℚ
deriving DecidableEq

/-- `ContractRiskAssessment._assess_farmer_reliability` (lines 382-399).  With
zero contracts it returns 0.5 at line 389.  Otherwise execution reaches line
396, which evaluates `models.Avg` — but the name `models` is never imported in
`ml_services.py`, so a `NameError` is raised before any value is produced. -/
def assess_farmer_reliability (farmer : PartyHistory) : Except Unit ℚ :=
  if farmer.total = 0 then .ok (1/2)
  else .error ()

/-- `ContractRiskAssessment._assess_buyer_reliability` (lines 401-411). -/
def assess_buyer_reliability (buyer : PartyHistory) : ℚ :=
  if buyer.total = 0 then 1/2
  else 1 - (buyer.completed : ℚ) / (buyer.total : ℚ)

/-- `ContractRiskAssessment._assess_crop_volatility` (lines 413-415). -/
def assess_crop_volatility (crop : Crop) : ℚ :=
  pyOr crop.price_volatility_score (1/2)

/-- `ContractRiskAssessment._assess_weather_risk` (lines 417-420). -/
def assess_weather_risk (_location : String) : ℚ := 3/10

/-- `ContractRiskAssessment._assess_market_risk` (lines 422-425). -/
def assess_market_risk (_crop : Crop) : ℚ := 2/5

/-- `ContractRiskAssessment._assess_quantity_risk` (lines 427-435). -/
def assess_quantity_risk (contracted_quantity available_quantity : ℚ) : ℚ :=
  if available_quantity = 0 then 1
  else
    let r := contracted_quantity / available_quantity
    if r > 1 then min (r - 1) 1
    else 1/10

/-- `ContractRiskAssessment._categorize_risk` (lines 437-444). -/
def categorize_risk (risk_score : ℚ) : String :=
  if risk_score < 3/10 then "low"
  else if risk_score < 6/10 then "medium"
  else "high"

/-- The `risk_factors` dict built at lines 348-355, in insertion order. -/
structure RiskFactors where
  farmer_reliability : ℚ
  buyer_reliability : ℚ
  crop_volatility : ℚ
  weather_risk : ℚ
  market_risk : ℚ
  quantity_risk : ℚ
deriving DecidableEq

/-- `ContractRiskAssessment._get_risk_recommendations` (lines 446-462): the
three threshold checks append in order, and the fixed closing line is added
only when nothing matched.  `quantity_risk` is never consulted. -/
def get_risk_recommendations (overall_risk : ℚ) (risk_factors : RiskFactors) : List String :=
  let l1 := if overall_risk > 7/10
    then ["High risk contract - consider additional safeguards"] else []
  let l2 := l1 ++ (if risk_factors.farmer_reliability > 6/10
    then ["Farmer has limited track record - consider milestone payments"] else [])
  let l3 := l2 ++ (if risk_factors.weather_risk > 6/10
    then ["High weather risk - consider crop insurance"] else [])
  if l3.isEmpty then ["Low risk contract - proceed with standard terms"] else l3

/-- The dict returned by `assess_contract_risk`: the error dict of line 380 has
no `risk_factors` and no `recommendations` keys, modelled with `none`. -/
structure RiskResult where
  overall_risk_score : ℚ
  risk_level : String
  risk_factors : Option RiskFactors
  recommendations : Option (List String)
deriving DecidableEq

/-- Whether `_assess_quantity_risk` hands back a `Decimal`.  The contract
quantities are `DecimalField`s, so `ratio` is a `Decimal`; the branch of line
434 returns `min(ratio - 1, 1.0)`, which stays the `Decimal` `ratio - 1` unless
the float `1.0` is strictly smaller (CPython `min` keeps its first argument on
ties), i.e. exactly when `1 < ratio ≤ 2`; the other branches return the float
literals 1.0 and 0.1. -/
def quantity_factor_is_decimal (contracted_quantity available_quantity : ℚ) : Bool :=
  if available_quantity = 0 then false
  else if 1 < contracted_quantity / available_quantity then
    decide (contracted_quantity / available_quantity - 1 ≤ 1)
  else false

/-- The weighted sum of lines 358-370: dict iteration follows insertion order,
with the weights `{0.25, 0.20, 0.15, 0.15, 0.15, 0.10}`. -/
def overall_risk_of (rf : RiskFactors) : ℚ :=
  rf.farmer_reliability * (25/100) + rf.buyer_reliability * (20/100)
    + rf.crop_volatility * (15/100) + rf.weather_risk * (15/100)
    + rf.market_risk * (15/100) + rf.quantity_risk * (10/100)

/-- `ContractRiskAssessment.assess_contract_risk` (lines 343-380): the body is
wrapped in `try/except`, so the `NameError` raised by the farmer-reliability
assessor (any farmer with a contract history) degrades the whole call to the
error dict `{overall_risk_score: 0.5, risk_level: medium}` of line 380 — and so
does the `TypeError` raised by the weighted sum of lines 367-370 when the
quantity factor is a `Decimal` (every factor is multiplied by a float weight,
and `Decimal * float` raises). -/
def assess_contract_risk (contract : Contract) : RiskResult :=
  match assess_farmer_reliability contract.farmer with
  | .error _ => { overall_risk_score := 1/2, risk_level := "medium"
                  risk_factors := none, recommendations := none }
  | .ok fr =>
    if quantity_factor_is_decimal contract.agreed_quantity
        contract.listing.quantity_available then
      { overall_risk_score := 1/2, risk_level := "medium"
        risk_factors := none, recommendations := none }
    else
    let rf : RiskFactors :=
      { farmer_reliability := fr
        buyer_reliability := assess_buyer_reliability contract.buyer
        crop_volatility := assess_crop_volatility contract.listing.crop
        weather_risk := assess_weather_risk contract.listing.farm_location
        market_risk := assess_market_risk contract.listing.crop
        quantity_risk := assess_quantity_risk contract.agreed_quantity
          contract.listing.quantity_available }
    let overall := overall_risk_of rf
    { overall_risk_score := pyRound 3 overall
      risk_level := categorize_risk overall
      risk_factors := some rf
      recommendations := some (get_risk_recommendations overall rf) }

/-- Data-model precondition on a crop snapshot: the nullable decimals are ≥ 0
and the volatility score lies in `[0,1]`. -/
def CropValid (c : Crop) : Prop :=
  (∀ y ∈ c.average_yield_per_acre, 0 ≤ y) ∧
  (∀ p ∈ c.current_market_price, 0 ≤ p) ∧
  (∀ v ∈ c.price_volatility_score, 0 ≤ v ∧ v ≤ 1)

/-- Data-model precondition on the database view: every stored crop is valid and
every `price_per_quintal` is positive. -/
def PriceDBValid (db : PriceDB) : Prop :=
  (∀ i c, db.crops i = some c → CropValid c) ∧
  (∀ i p, p ∈ db.recentPrices i → 0 < p)

/-- Data-model precondition on a history view: completed contracts are a subset
of all contracts. -/
def HistoryValid (h : PartyHistory) : Prop := h.completed ≤ h.total

/-- Data-model precondition on a contract snapshot. -/
def ContractValid (c : Contract) : Prop :=
  HistoryValid c.farmer ∧ HistoryValid c.buyer ∧ CropValid c.listing.crop ∧
  0 < c.agreed_quantity ∧ 0 ≤ c.listing.quantity_available

/-- Membership of a rational in the closed unit interval. -/
def UnitInterval (x : ℚ) : Prop := 0 ≤ x ∧ x ≤ 1

/-- The `[0,1]` / nonnegativity obligations on a price-prediction dict. -/
def PriceResultOk (r : PriceResult) : Prop :=
  0 ≤ r.predicted_price ∧ UnitInterval r.confidence ∧
  0 ≤ r.price_range.min ∧ 0 ≤ r.price_range.max

/-- The `[0,1]` obligations on a quality-assessment dict. -/
def QualityResultOk (q : QualityResult) : Prop :=
  UnitInterval q.quality_score ∧ UnitInterval q.ripeness_score ∧
  UnitInterval q.health_indicators.color_uniformity ∧
  UnitInterval q.health_indicators.size_consistency ∧
  UnitInterval q.health_indicators.defect_level

/-- The `[0,1]` / nonnegativity obligations on a yield-prediction dict. -/
def YieldResultOk (r : YieldResult) : Prop :=
  0 ≤ r.predicted_yield ∧ (∀ v ∈ r.yield_per_acre, 0 ≤ v) ∧ UnitInterval r.confidence

/-- Every one of the six risk factors lies in `[0,1]`. -/
def RiskFactorsOk (rf : RiskFactors) : Prop :=
  UnitInterval rf.farmer_reliability ∧ UnitInterval rf.buyer_reliability ∧
  UnitInterval rf.crop_volatility ∧ UnitInterval rf.weather_risk ∧
  UnitInterval rf.market_risk ∧ UnitInterval rf.quantity_risk

/-- The obligations on a risk-assessment dict: score in `[0,1]`, a legal risk
level, and bounded factors whenever the factor dict is present. -/
def RiskResultOk (r : RiskResult) : Prop :=
  UnitInterval r.overall_risk_score ∧
  r.risk_level ∈ (["low", "medium", "high"] : List String) ∧
  ∀ rf ∈ r.risk_factors, RiskFactorsOk rf

theorem roundHalfEven_nonneg (y : ℚ) (h : 0 ≤ y) : 0 ≤ roundHalfEven y := by
  simp only [roundHalfEven]
  have hf : 0 ≤ ⌊y⌋ := Int.floor_nonneg.mpr h
  split_ifs <;> omega

theorem roundHalfEven_le (y : ℚ) (m : ℤ) (h : y ≤ (m : ℚ)) : roundHalfEven y ≤ m := by
  simp only [roundHalfEven]
  have hfm : ⌊y⌋ ≤ m := by
    have h1 := Int.floor_mono h
    rwa [Int.floor_intCast] at h1
  have hkey : ¬ y - (⌊y⌋ : ℚ) < 1/2 → ⌊y⌋ < m := by
    intro hr
    rcases lt_or_eq_of_le hfm with h1 | h1
    · exact h1
    · exfalso
      apply hr
      rw [h1]
      linarith
  split_ifs with h1 h2 h3
  · exact hfm
  · have := hkey h1; omega
  · have := hkey h1; omega
  · have := hkey h1; omega

theorem pyRound_nonneg (n : ℕ) (x : ℚ) (h : 0 ≤ x) : 0 ≤ pyRound n x := by
  unfold pyRound
  have h10 : (0 : ℚ) < 10 ^ n := by positivity
  have h1 : 0 ≤ x * 10 ^ n := by positivity
  have h2 := roundHalfEven_nonneg _ h1
  have h3 : (0 : ℚ) ≤ (roundHalfEven (x * 10 ^ n) : ℚ) := by exact_mod_cast h2
  positivity

theorem pyRound_le_one (n : ℕ) (x : ℚ) (h : x ≤ 1) : pyRound n x ≤ 1 := by
  unfold pyRound
  have h10 : (0 : ℚ) < 10 ^ n := by positivity
  have h1 : x * 10 ^ n ≤ ((10 ^ n : ℤ) : ℚ) := by
    push_cast
    nlinarith
  have h2 := roundHalfEven_le _ _ h1
  rw [div_le_one h10]
  calc (roundHalfEven (x * 10 ^ n) : ℚ) ≤ ((10 ^ n : ℤ) : ℚ) := by exact_mod_cast h2
    _ = 10 ^ n := by push_cast; ring

theorem pyRound_unit (n : ℕ) (x : ℚ) (h : UnitInterval x) : UnitInterval (pyRound n x) :=
  ⟨pyRound_nonneg n x h.1, pyRound_le_one n x h.2⟩

theorem pyOr_nonneg (a : Option ℚ) (b : ℚ) (ha : ∀ x ∈ a, 0 ≤ x) (hb : 0 ≤ b) :
    0 ≤ pyOr a b := by
  rcases a with _ | x
  · exact hb
  · simp only [pyOr]
    split_ifs
    · exact hb
    · exact ha x rfl

theorem pyOr_unit (a : Option ℚ) (b : ℚ) (ha : ∀ x ∈ a, UnitInterval x) (hb : UnitInterval b) :
    UnitInterval (pyOr a b) := by
  rcases a with _ | x
  · exact hb
  · simp only [pyOr]
    split_ifs
    · exact hb
    · exact ha x rfl

theorem npMean_nonneg (l : List ℚ) (h : ∀ x ∈ l, 0 ≤ x) : 0 ≤ npMean l := by
  unfold npMean
  have h1 : 0 ≤ l.sum := List.sum_nonneg h
  have h2 : (0 : ℚ) ≤ l.length := by positivity
  exact div_nonneg h1 h2

theorem buyer_reliability_unit (b : PartyHistory) (h : HistoryValid b) :
    UnitInterval (assess_buyer_reliability b) := by
  unfold assess_buyer_reliability
  split_ifs with h0
  · constructor <;> norm_num
  · have ht : (0 : ℚ) < b.total := by
      have : 0 < b.total := Nat.pos_of_ne_zero h0
      exact_mod_cast this
    have hc : (0 : ℚ) ≤ b.completed := by positivity
    have hct : (b.completed : ℚ) ≤ (b.total : ℚ) := by exact_mod_cast h
    have h1 : (b.completed : ℚ) / b.total ≤ 1 := (div_le_one ht).mpr hct
    have h2 : 0 ≤ (b.completed : ℚ) / b.total := div_nonneg hc (le_of_lt ht)
    constructor <;> linarith

theorem quantity_risk_unit (a v : ℚ) (ha : 0 < a) (hv : 0 ≤ v) :
    UnitInterval (assess_quantity_risk a v) := by
  simp only [assess_quantity_risk]
  split_ifs with h0 h1
  · constructor <;> norm_num
  · have hvpos : 0 < v := lt_of_le_of_ne hv (Ne.symm h0)
    constructor
    · apply le_min
      · linarith
      · norm_num
    · exact min_le_right _ _
  · constructor <;> norm_num

theorem categorize_risk_mem (s : ℚ) :
    categorize_risk s ∈ (["low", "medium", "high"] : List String) := by
  unfold categorize_risk
  split_ifs <;> simp

theorem farming_multiplier_nonneg (ft : String) : 0 ≤ farming_multiplier ft := by
  unfold farming_multiplier
  split_ifs <;> norm_num

theorem crop_health_nonneg (imgs : List Unit) : 0 ≤ assess_crop_health_from_images imgs := by
  unfold assess_crop_health_from_images
  apply npMean_nonneg
  intro x hx
  simp only [List.mem_map] at hx
  obtain ⟨_, _, rfl⟩ := hx
  norm_num [fallback_assessment]

/-- C1: under the data-model preconditions, every result any of the four
estimators actually returns satisfies the documented bounds: every
confidence/score/risk value lies in `[0,1]`, every risk factor lies in `[0,1]`,
every price and yield estimate is nonnegative, and the risk level is one of
low, medium, high. -/
theorem estimator_result_invariants (db : PriceDB) (crop_id : ℕ) (loc : String) (qty : ℚ)
    (season : String) (img : Option String) (land_size : ℚ) (ft : String) (imgs : List Unit)
    (con : Contract) (hdb : PriceDBValid db) (hland : 0 ≤ land_size) (hcon : ContractValid con) :
    (∀ r, predict_price db crop_id loc qty season = .ok r → PriceResultOk r) ∧
    QualityResultOk (assess_quality img) ∧
    YieldResultOk (predict_yield db crop_id land_size ft loc imgs) ∧
    RiskResultOk (assess_contract_risk con) := by
  obtain ⟨hfar, hbuy, hcv, hagr, hav⟩ := hcon
  refine ⟨?_, ?_, ?_, ?_⟩
  · -- price predictions
    intro r hr
    unfold predict_price fallback_prediction at hr
    split at hr
    · cases hr
    case _ crop heq =>
      have hcrop := hdb.1 _ _ heq
      dsimp only at hr
      split at hr
      · injection hr with hr
        subst hr
        refine ⟨?_, by norm_num [UnitInterval], le_refl 0, ?_⟩
        · exact pyOr_nonneg _ _ hcrop.2.1 (le_refl 0)
        · have := pyOr_nonneg crop.current_market_price 0 hcrop.2.1 (le_refl 0)
          simpa using by positivity
      · cases hr
  · -- quality assessments
    norm_num [QualityResultOk, assess_quality, fallback_assessment, UnitInterval]
  · -- yield predictions
    have hok : YieldResultOk (predict_yield_completed land_size ft loc imgs) := by
      have hfm := farming_multiplier_nonneg ft
      have himg : 0 ≤ (if imgs.isEmpty then (1 : ℚ) else assess_crop_health_from_images imgs) := by
        split_ifs
        · norm_num
        · exact crop_health_nonneg imgs
      have hprod : 0 ≤ (10 : ℚ) * land_size * farming_multiplier ft
          * get_location_yield_factor loc * get_weather_yield_factor loc
          * (if imgs.isEmpty then (1 : ℚ) else assess_crop_health_from_images imgs) := by
        unfold get_location_yield_factor get_weather_yield_factor
        have h1 : (0 : ℚ) ≤ 10 * land_size := mul_nonneg (by norm_num) hland
        have h2 := mul_nonneg h1 hfm
        nlinarith [himg, h2]
      unfold predict_yield_completed
      refine ⟨pyRound_nonneg _ _ hprod, ?_, by norm_num [UnitInterval]⟩
      intro v hv
      simp only [Option.mem_def, Option.some_inj] at hv
      subst hv
      split
      · next hpos =>
          apply pyRound_nonneg
          exact div_nonneg hprod (le_of_lt hpos)
      · exact le_refl (0 : ℚ)
    unfold predict_yield
    split
    · exact ⟨le_refl 0, by simp, by norm_num [UnitInterval]⟩
    · split
      · exact hok
      · split
        · exact hok
        · exact ⟨le_refl 0, by simp, by norm_num [UnitInterval]⟩
  · -- risk assessments
    unfold assess_contract_risk
    split
    · exact ⟨by norm_num [UnitInterval], by simp, by simp⟩
    case _ fr heq =>
      have hfr : fr = 1/2 := by
        unfold assess_farmer_reliability at heq
        split_ifs at heq
        · injection heq with h
          exact h.symm
      have hfru : UnitInterval fr := by rw [hfr]; constructor <;> norm_num
      have hbuyu := buyer_reliability_unit con.buyer hbuy
      have hvolu : UnitInterval (assess_crop_volatility con.listing.crop) := by
        apply pyOr_unit
        · exact hcv.2.2
        · constructor <;> norm_num
      have hqu := quantity_risk_unit con.agreed_quantity con.listing.quantity_available hagr hav
      have hover : UnitInterval (overall_risk_of
          { farmer_reliability := fr
            buyer_reliability := assess_buyer_reliability con.buyer
            crop_volatility := assess_crop_volatility con.listing.crop
            weather_risk := assess_weather_risk con.listing.farm_location
            market_risk := assess_market_risk con.listing.crop
            quantity_risk := assess_quantity_risk con.agreed_quantity
              con.listing.quantity_available }) := by
        unfold overall_risk_of assess_weather_risk assess_market_risk
        obtain ⟨q1, q2⟩ := hqu
        obtain ⟨b1, b2⟩ := hbuyu
        obtain ⟨v1, v2⟩ := hvolu
        obtain ⟨f1, f2⟩ := hfru
        constructor <;> [skip; skip] <;> dsimp only <;> linarith
      split
      · exact ⟨by norm_num [UnitInterval], by simp, by simp⟩
      · refine ⟨pyRound_unit _ _ hover, categorize_risk_mem _, ?_⟩
        intro rf hrf
        simp only [Option.mem_def, Option.some_inj] at hrf
        subst hrf
        exact ⟨hfru, hbuyu, hvolu, by constructor <;> norm_num [assess_weather_risk],
          by constructor <;> norm_num [assess_market_risk], hqu⟩

/-- Witness for C1: the invariants instantiated at a concrete database and a
concrete contract. -/
theorem estimator_result_invariants_witness :
    QualityResultOk (assess_quality none) ∧
    RiskResultOk (assess_contract_risk
      { farmer := ⟨0, 0⟩, buyer := ⟨2, 4⟩
        listing := { crop := ⟨none, none, some (1/2)⟩, quantity_available := 100
                     farm_location := "Pune" }
        agreed_quantity := 50 }) := by
  have h := estimator_result_invariants
    { crops := fun _ => some ⟨some 12, some 200, some (1/2)⟩, recentPrices := fun _ => [40, 50] }
    1 "Pune" 5 "current" none 5 "organic" []
    { farmer := ⟨0, 0⟩, buyer := ⟨2, 4⟩
      listing := { crop := ⟨none, none, some (1/2)⟩, quantity_available := 100
                   farm_location := "Pune" }
      agreed_quantity := 50 }
    ?_ (by norm_num) ?_
  · exact ⟨h.2.1, h.2.2.2⟩
  · constructor
    · intro i c hc
      injection hc with hc
      subst hc
      refine ⟨?_, ?_, ?_⟩ <;> intro v hv <;> simp only [Option.mem_def, Option.some_inj] at hv
        <;> subst hv <;> norm_num
    · intro i p hp
      simp only [List.mem_cons, List.not_mem_nil, or_false] at hp
      rcases hp with rfl | rfl <;> norm_num
  · refine ⟨by norm_num [HistoryValid], by norm_num [HistoryValid], ?_, by norm_num, by norm_num⟩
    refine ⟨?_, ?_, ?_⟩ <;> intro v hv <;> simp only [Option.mem_def, Option.some_inj] at hv
    · exact absurd hv (by simp)
    · exact absurd hv (by simp)
    · subst hv; norm_num

/-- C2 counterexample: a proposal whose buyer completed 1 of 3 contracts makes
the weighted sum `269/600 = 0.44833…`, while the returned `overall_risk_score`
is the 3-digit rounding `0.448`, so the score does not equal the weighted sum. -/
theorem risk_score_rounding_counterexample :
    (assess_contract_risk
      { farmer := ⟨0, 0⟩, buyer := ⟨1, 3⟩
        listing := { crop := ⟨none, none, some (1/2)⟩, quantity_available := 100
                     farm_location := "Pune" }
        agreed_quantity := 50 }).risk_factors
      = some ⟨1/2, 2/3, 1/2, 3/10, 2/5, 1/10⟩ ∧
    (assess_contract_risk
      { farmer := ⟨0, 0⟩, buyer := ⟨1, 3⟩
        listing := { crop := ⟨none, none, some (1/2)⟩, quantity_available := 100
                     farm_location := "Pune" }
        agreed_quantity := 50 }).overall_risk_score
      ≠ (1/2) * (25/100) + (2/3) * (20/100) + (1/2) * (15/100) + (3/10) * (15/100)
        + (2/5) * (15/100) + (1/10) * (10/100) := by
  have hval : assess_contract_risk
      { farmer := ⟨0, 0⟩, buyer := ⟨1, 3⟩
        listing := { crop := ⟨none, none, some (1/2)⟩, quantity_available := 100
                     farm_location := "Pune" }
        agreed_quantity := 50 }
      = { overall_risk_score := pyRound 3 (overall_risk_of ⟨1/2, 2/3, 1/2, 3/10, 2/5, 1/10⟩)
          risk_level := categorize_risk (overall_risk_of ⟨1/2, 2/3, 1/2, 3/10, 2/5, 1/10⟩)
          risk_factors := some ⟨1/2, 2/3, 1/2, 3/10, 2/5, 1/10⟩
          recommendations := some (get_risk_recommendations
            (overall_risk_of ⟨1/2, 2/3, 1/2, 3/10, 2/5, 1/10⟩) ⟨1/2, 2/3, 1/2, 3/10, 2/5, 1/10⟩) } := by
    unfold assess_contract_risk
    norm_num [assess_farmer_reliability, assess_buyer_reliability, assess_crop_volatility,
      assess_weather_risk, assess_market_risk, assess_quantity_risk, pyOr,
      quantity_factor_is_decimal]
  rw [hval]
  refine ⟨rfl, ?_⟩
  norm_num [overall_risk_of, pyRound, roundHalfEven]

/-- C2 (amended): whenever the risk assessment completes (the factor dict is
present in the result), the returned score is the 3-digit rounding of the
weighted factor sum, the risk level is the categorisation of the unrounded sum,
the weights are 0.25/0.20/0.15/0.15/0.15/0.10 summing to exactly 1, and the
categorisation sends `[0,0.3)` to low, `[0.3,0.6)` to medium and `[0.6,∞)` to
high (so exactly 0.3 is medium and exactly 0.6 is high). -/
theorem risk_score_weighted_sum (con : Contract) (rf : RiskFactors)
    (hrf : (assess_contract_risk con).risk_factors = some rf) :
    (assess_contract_risk con).overall_risk_score = pyRound 3 (overall_risk_of rf) ∧
    (assess_contract_risk con).risk_level = categorize_risk (overall_risk_of rf) ∧
    overall_risk_of rf = rf.farmer_reliability * (25/100) + rf.buyer_reliability * (20/100)
      + rf.crop_volatility * (15/100) + rf.weather_risk * (15/100)
      + rf.market_risk * (15/100) + rf.quantity_risk * (10/100) ∧
    (25/100 : ℚ) + 20/100 + 15/100 + 15/100 + 15/100 + 10/100 = 1 ∧
    (∀ s : ℚ, s < 3/10 → categorize_risk s = "low") ∧
    (∀ s : ℚ, 3/10 ≤ s → s < 6/10 → categorize_risk s = "medium") ∧
    (∀ s : ℚ, 6/10 ≤ s → categorize_risk s = "high") := by
  have hcat1 : ∀ s : ℚ, s < 3/10 → categorize_risk s = "low" := by
    intro s hs
    unfold categorize_risk
    rw [if_pos hs]
  have hcat2 : ∀ s : ℚ, 3/10 ≤ s → s < 6/10 → categorize_risk s = "medium" := by
    intro s hs1 hs2
    unfold categorize_risk
    rw [if_neg (by linarith), if_pos hs2]
  have hcat3 : ∀ s : ℚ, 6/10 ≤ s → categorize_risk s = "high" := by
    intro s hs
    unfold categorize_risk
    rw [if_neg (by linarith), if_neg (by linarith)]
  rcases heq : assess_farmer_reliability con.farmer with e | fr
  · exfalso
    unfold assess_contract_risk at hrf
    rw [heq] at hrf
    simp at hrf
  · unfold assess_contract_risk at hrf ⊢
    rw [heq] at hrf ⊢
    dsimp only at hrf ⊢
    by_cases hb : quantity_factor_is_decimal con.agreed_quantity
        con.listing.quantity_available = true
    · rw [if_pos hb] at hrf
      simp at hrf
    · rw [if_neg hb] at hrf ⊢
      rw [Option.some_inj] at hrf
      subst hrf
      refine ⟨rfl, rfl, by unfold overall_risk_of; dsimp only, by norm_num, hcat1, hcat2, hcat3⟩

/-- Witness for C2: the amended statement instantiated at a concrete proposal. -/
theorem risk_score_weighted_sum_witness :
    (assess_contract_risk
      { farmer := ⟨0, 0⟩, buyer := ⟨3, 4⟩
        listing := { crop := ⟨none, none, none⟩, quantity_available := 100
                     farm_location := "Pune" }
        agreed_quantity := 50 }).overall_risk_score
      = pyRound 3 (overall_risk_of ⟨1/2, 1/4, 1/2, 3/10, 2/5, 1/10⟩) := by
  have h := risk_score_weighted_sum
    { farmer := ⟨0, 0⟩, buyer := ⟨3, 4⟩
      listing := { crop := ⟨none, none, none⟩, quantity_available := 100
                   farm_location := "Pune" }
      agreed_quantity := 50 }
    ⟨1/2, 1/4, 1/2, 3/10, 2/5, 1/10⟩
    (by unfold assess_contract_risk
        norm_num [assess_farmer_reliability, assess_buyer_reliability, assess_crop_volatility,
          assess_weather_risk, assess_market_risk, assess_quantity_risk, pyOr,
          quantity_factor_is_decimal])
  exact h.1

/-- C3 counterexample: a party that completed 8 of 10 contracts.  The claim
predicts risk `0.16` for both assessors; in the code the farmer assessor
raises (the name `models` is unbound at line 396) and the buyer assessor
returns `1 - 0.8 = 0.2 ≠ 0.16`, so the two assessors are not the claimed
function and not the same function. -/
theorem reliability_formula_counterexample :
    assess_farmer_reliability ⟨8, 10⟩ = .error () ∧
    assess_buyer_reliability ⟨8, 10⟩ = 1/5 ∧
    (1/5 : ℚ) ≠ 1 - ((8 : ℚ)/10 * (8/10) + 2/10) := by
  refine ⟨rfl, ?_, by norm_num⟩
  norm_num [assess_buyer_reliability]

/-- C3 (amended): both reliability assessors return the neutral risk 0.5 for a
party with no contract history.  For a party with history, the farmer assessor
raises a `NameError` (`models` is unbound where the review average is taken),
producing no value, while the buyer assessor returns `1 - completed/total`. -/
theorem reliability_assessors (h : PartyHistory) :
    (h.total = 0 → assess_farmer_reliability h = .ok (1/2) ∧ assess_buyer_reliability h = 1/2) ∧
    (h.total ≠ 0 → assess_farmer_reliability h = .error () ∧
      assess_buyer_reliability h = 1 - (h.completed : ℚ) / h.total) := by
  constructor
  · intro h0
    unfold assess_farmer_reliability assess_buyer_reliability
    rw [if_pos h0, if_pos h0]
    exact ⟨rfl, rfl⟩
  · intro h0
    unfold assess_farmer_reliability assess_buyer_reliability
    rw [if_neg h0, if_neg h0]
    exact ⟨rfl, rfl⟩

/-- Witness for C3: the amended statement instantiated at histories 3-of-4 and
0-of-0. -/
theorem reliability_assessors_witness :
    (assess_farmer_reliability ⟨3, 4⟩ = .error () ∧
      assess_buyer_reliability ⟨3, 4⟩ = 1 - (3 : ℚ) / 4) ∧
    (assess_farmer_reliability ⟨0, 0⟩ = .ok (1/2) ∧ assess_buyer_reliability ⟨0, 0⟩ = 1/2) :=
  ⟨(reliability_assessors ⟨3, 4⟩).2 (by decide), (reliability_assessors ⟨0, 0⟩).1 rfl⟩

/-- C4: the quantity risk factor is 1.0 when nothing is available, the capped
over-commitment excess when the agreed/available ratio exceeds one, and the
flat 0.1 otherwise, with the three documented example values. -/
theorem quantity_risk_spec (agreed available : ℚ) (hagr : 0 < agreed) (hav : 0 ≤ available) :
    (available = 0 → assess_quantity_risk agreed available = 1) ∧
    (available ≠ 0 → agreed / available > 1 →
      assess_quantity_risk agreed available = min (agreed / available - 1) 1) ∧
    (available ≠ 0 → agreed / available ≤ 1 → assess_quantity_risk agreed available = 1/10) ∧
    assess_quantity_risk 50 100 = 1/10 ∧
    assess_quantity_risk 150 100 = 1/2 ∧
    assess_quantity_risk 300 100 = 1 := by
  refine ⟨?_, ?_, ?_, ?_, ?_, ?_⟩
  · intro h0
    simp only [assess_quantity_risk]
    rw [if_pos h0]
  · intro h0 h1
    simp only [assess_quantity_risk]
    rw [if_neg h0, if_pos h1]
  · intro h0 h1
    simp only [assess_quantity_risk]
    rw [if_neg h0, if_neg (not_lt.mpr h1)]
  · simp only [assess_quantity_risk]
    norm_num
  · simp only [assess_quantity_risk]
    norm_num [min_def]
  · simp only [assess_quantity_risk]
    norm_num [min_def]

/-- Witness for C4: the statement instantiated at agreed 150, available 100. -/
theorem quantity_risk_spec_witness : assess_quantity_risk 150 100 = 1/2 :=
  (quantity_risk_spec 150 100 (by norm_num) (by norm_num)).2.2.2.2.1

/-- C5 counterexample: with no crop row matching the id, `predict_price` raises
(`Crop.objects.get` in `_fallback_prediction` is called outside any guard, both
on the model-absent path and inside the `except` handler), so an error escapes
the estimator and no fallback result — let alone the claimed constant
`{100, 0.1, {80, 120}}` — is returned. -/
theorem error_escape_counterexample :
    predict_price { crops := fun _ => none, recentPrices := fun _ => [] } 1 "Pune" 5 "current"
      = .error () := rfl

/-- C5 (amended): `assess_quality`, `predict_yield` and `assess_contract_risk`
never let an error escape — the quality estimator always returns the fixed
fallback assessment, the yield estimator degrades to
`{predicted_yield: 0, confidence: 0}` when the crop lookup fails, and the risk
estimator degrades to `{overall_risk_score: 0.5, risk_level: medium}` when its
body raises — but `predict_price` propagates a failed crop lookup to its
caller, and none of the fallback dicts carries a `method` tag. -/
theorem estimator_error_boundaries (db : PriceDB) (crop_id : ℕ) (loc : String) (qty land : ℚ)
    (season ft : String) (img : Option String) (imgs : List Unit) (con : Contract) :
    assess_quality img = fallback_assessment ∧
    (db.crops crop_id = none → predict_yield db crop_id land ft loc imgs =
      { predicted_yield := 0, yield_per_acre := none, confidence := 0, factors := none }) ∧
    (con.farmer.total ≠ 0 → assess_contract_risk con =
      { overall_risk_score := 1/2, risk_level := "medium", risk_factors := none
        recommendations := none }) ∧
    (db.crops crop_id = none → predict_price db crop_id loc qty season = .error ()) := by
  refine ⟨rfl, ?_, ?_, ?_⟩
  · intro h0
    unfold predict_yield
    rw [h0]
  · intro h0
    have herr : assess_farmer_reliability con.farmer = .error () := by
      unfold assess_farmer_reliability
      rw [if_neg h0]
    unfold assess_contract_risk
    rw [herr]
  · intro h0
    unfold predict_price fallback_prediction
    rw [h0]

/-- Witness for C5: the amended statement instantiated at an empty database and
a contract whose farmer has prior history. -/
theorem estimator_error_boundaries_witness :
    predict_yield { crops := fun _ => none, recentPrices := fun _ => [] } 1 5 "organic" "Pune" []
      = { predicted_yield := 0, yield_per_acre := none, confidence := 0, factors := none } ∧
    assess_contract_risk
      { farmer := ⟨8, 10⟩, buyer := ⟨0, 0⟩
        listing := { crop := ⟨none, none, none⟩, quantity_available := 100
                     farm_location := "Pune" }
        agreed_quantity := 50 }
      = { overall_risk_score := 1/2, risk_level := "medium", risk_factors := none
          recommendations := none } :=
  ⟨(estimator_error_boundaries { crops := fun _ => none, recentPrices := fun _ => [] }
      1 "Pune" 5 5 "current" "organic" none []
      { farmer := ⟨8, 10⟩, buyer := ⟨0, 0⟩
        listing := { crop := ⟨none, none, none⟩, quantity_available := 100
                     farm_location := "Pune" }
        agreed_quantity := 50 }).2.1 rfl,
   (estimator_error_boundaries { crops := fun _ => none, recentPrices := fun _ => [] }
      1 "Pune" 5 5 "current" "organic" none []
      { farmer := ⟨8, 10⟩, buyer := ⟨0, 0⟩
        listing := { crop := ⟨none, none, none⟩, quantity_available := 100
                     farm_location := "Pune" }
        agreed_quantity := 50 }).2.2.1 (by norm_num)⟩

/-- C6 counterexample: a crop with no recent records and market price 200
yields `price_range = {0, 400}`, not the claimed `{160, 240}`; with no market
price at all the base defaults to 0, not the claimed 100. -/
theorem price_estimate_counterexample :
    predict_price { crops := fun _ => some ⟨none, some 200, none⟩, recentPrices := fun _ => [] }
        1 "Pune" 5 "current"
      = .ok { predicted_price := 200, confidence := 3/10
              price_range := { min := 0, max := 400 } } ∧
    (400 : ℚ) ≠ 240 ∧ (0 : ℚ) ≠ 160 ∧
    predict_price { crops := fun _ => some ⟨none, none, none⟩, recentPrices := fun _ => [] }
        1 "Pune" 5 "current"
      = .ok { predicted_price := 0, confidence := 3/10
              price_range := { min := 0, max := 0 } } ∧
    (0 : ℚ) ≠ 100 := by
  refine ⟨?_, by norm_num, by norm_num, ?_, by norm_num⟩
  · unfold predict_price fallback_prediction
    norm_num [pyOr]
  · unfold predict_price fallback_prediction
    norm_num [pyOr]

/-- C6 (amended): with no recent records the estimate is `current_market_price`
when present and nonzero, else 0, with confidence 0.3 and range `{0, 2*base}`
and no `method` tag.  With recent records the historical-average branch never
returns: the `Decimal` mean multiplied by the float 0.85 raises a `TypeError`
that escapes `predict_price`. -/
theorem price_estimation_spec (db : PriceDB) (crop_id : ℕ) (loc : String) (qty : ℚ)
    (season : String) (crop : Crop) (h : db.crops crop_id = some crop) :
    (db.recentPrices crop_id = [] → predict_price db crop_id loc qty season =
      .ok { predicted_price :=
              match crop.current_market_price with
              | none => 0
              | some p => if p = 0 then 0 else p
            confidence := 3/10
            price_range := { min := 0
                             max := (match crop.current_market_price with
                                     | none => 0
                                     | some p => if p = 0 then 0 else p) * 2 } }) ∧
    (db.recentPrices crop_id ≠ [] → predict_price db crop_id loc qty season = .error ()) := by
  constructor
  · intro he
    unfold predict_price fallback_prediction
    rw [h]
    dsimp only
    rw [he]
    rfl
  · intro he
    unfold predict_price fallback_prediction
    rw [h]
    dsimp only
    rw [if_neg (by simpa [List.isEmpty_iff] using he)]

/-- Witness for C6: the amended statement instantiated at a crop with market
price 200 and no records, and at a crop with records `[100, 200]`. -/
theorem price_estimation_spec_witness :
    predict_price { crops := fun _ => some ⟨none, some 200, none⟩, recentPrices := fun _ => [] }
        1 "Pune" 5 "current"
      = .ok { predicted_price := if (200 : ℚ) = 0 then 0 else 200, confidence := 3/10
              price_range := { min := 0, max := (if (200 : ℚ) = 0 then 0 else 200) * 2 } } ∧
    predict_price
        { crops := fun _ => some ⟨none, some 200, none⟩, recentPrices := fun _ => [100, 200] }
        1 "Pune" 5 "current"
      = .error () :=
  ⟨(price_estimation_spec
      { crops := fun _ => some ⟨none, some 200, none⟩, recentPrices := fun _ => [] }
      1 "Pune" 5 "current" ⟨none, some 200, none⟩ rfl).1 rfl,
   (price_estimation_spec
      { crops := fun _ => some ⟨none, some 200, none⟩, recentPrices := fun _ => [100, 200] }
      1 "Pune" 5 "current" ⟨none, some 200, none⟩ rfl).2 (by simp)⟩

/-- C7 counterexample: factors with `quantity_risk = 0.6 > 0.5` and everything
else low.  The claim predicts the single line about high quantity commitment;
the code never consults `quantity_risk` and returns the closing line, whose
wording is "Low risk contract - proceed with standard terms", not "Moderate
risk contract - …". -/
theorem recommendations_counterexample :
    get_risk_recommendations (1/5) ⟨1/10, 1/10, 1/10, 1/10, 1/10, 3/5⟩
      = ["Low risk contract - proceed with standard terms"] ∧
    (["Low risk contract - proceed with standard terms"] : List String)
      ≠ ["High quantity commitment - ensure adequate supply"] ∧
    (["Low risk contract - proceed with standard terms"] : List String)
      ≠ ["Moderate risk contract - proceed with standard terms"] := by
  refine ⟨?_, by simp, by simp⟩
  norm_num [get_risk_recommendations]

/-- C7 (amended): the recommendation list is assembled by appending, in order,
the high-overall-risk line (overall > 0.7), the farmer-track-record line
(farmer reliability risk > 0.6) and the weather-insurance line
(weather risk > 0.6); when no condition matched, the single closing line is
"Low risk contract - proceed with standard terms".  The quantity risk factor is
never consulted. -/
theorem risk_recommendations_spec (overall : ℚ) (rf : RiskFactors) (q : ℚ) :
    get_risk_recommendations overall rf =
      (let l :=
        (if overall > 7/10
          then ["High risk contract - consider additional safeguards"] else [])
        ++ (if rf.farmer_reliability > 6/10
            then ["Farmer has limited track record - consider milestone payments"] else [])
        ++ (if rf.weather_risk > 6/10
            then ["High weather risk - consider crop insurance"] else [])
       if l = [] then ["Low risk contract - proceed with standard terms"] else l) ∧
    get_risk_recommendations overall { rf with quantity_risk := q }
      = get_risk_recommendations overall rf := by
  constructor
  · unfold get_risk_recommendations
    dsimp only
    split_ifs <;> simp_all [List.isEmpty_iff]
  · rfl

/-- C8 counterexample: at the documented scenario (crop with
`average_yield_per_acre = 10`, 5 acres, hydroponic) the source raises a
`TypeError` (`Decimal` base times float multiplier) and returns the error dict,
so `predicted_yield` is 0, not the claimed 75; and on the completing path (no
stored average yield, so the integer default 10) the confidence is 0.7, not the
claimed 0.5. -/
theorem yield_scenario_counterexample :
    predict_yield { crops := fun _ => some ⟨some 10, none, none⟩, recentPrices := fun _ => [] }
        1 5 "hydroponic" "Pune" []
      = { predicted_yield := 0, yield_per_acre := none, confidence := 0, factors := none } ∧
    (0 : ℚ) ≠ 75 ∧ (0 : ℚ) ≠ 1/2 ∧
    (predict_yield { crops := fun _ => some ⟨none, none, none⟩, recentPrices := fun _ => [] }
        1 5 "hydroponic" "Pune" []).confidence = 7/10 ∧ (7/10 : ℚ) ≠ 1/2 := by
  refine ⟨?_, by norm_num, by norm_num, ?_, by norm_num⟩
  · unfold predict_yield
    norm_num
  · unfold predict_yield predict_yield_completed
    norm_num

/-- C8 (amended): `predict_yield` without images completes only when the crop
has no stored nonzero average yield, in which case `base_yield` is the integer
default 10 and it returns
`predicted_yield = round(10 * land_size * farming_multiplier, 2)` with the
multiplier organic 0.8 / traditional 1.0 / hydroponic 1.5 / mixed 1.1, default
1.0; `yield_per_acre = round(raw_yield / land_size, 2)` when `land_size > 0`,
else 0; confidence 0.7 (no `method` tag); and the factor dict carries the
location, weather and image factors fixed at 1.0.  When
`average_yield_per_acre` is present and nonzero, the `Decimal` base times the
float multiplier raises a `TypeError` and the estimator returns
`{predicted_yield: 0, confidence: 0}`. -/
theorem yield_estimation_spec (db : PriceDB) (crop_id : ℕ) (land_size : ℚ) (ft loc : String)
    (crop : Crop) (h : db.crops crop_id = some crop) :
    ((crop.average_yield_per_acre = none ∨ crop.average_yield_per_acre = some 0) →
      predict_yield db crop_id land_size ft loc [] =
        { predicted_yield := pyRound 2 (10 * land_size * farming_multiplier ft)
          yield_per_acre := some (if land_size > 0 then
            pyRound 2 (10 * land_size * farming_multiplier ft / land_size) else 0)
          confidence := 7/10
          factors := some { farming_type_factor := farming_multiplier ft, location_factor := 1
                            weather_factor := 1, image_factor := 1 } }) ∧
    (∀ y : ℚ, crop.average_yield_per_acre = some y → y ≠ 0 →
      predict_yield db crop_id land_size ft loc [] =
        { predicted_yield := 0, yield_per_acre := none, confidence := 0, factors := none }) ∧
    farming_multiplier "organic" = 4/5 ∧ farming_multiplier "traditional" = 1 ∧
    farming_multiplier "hydroponic" = 3/2 ∧ farming_multiplier "mixed" = 11/10 ∧
    (ft ≠ "organic" → ft ≠ "traditional" → ft ≠ "hydroponic" → ft ≠ "mixed" →
      farming_multiplier ft = 1) := by
  have hcompleted : predict_yield_completed land_size ft loc [] =
      { predicted_yield := pyRound 2 (10 * land_size * farming_multiplier ft)
        yield_per_acre := some (if land_size > 0 then
          pyRound 2 (10 * land_size * farming_multiplier ft / land_size) else 0)
        confidence := 7/10
        factors := some { farming_type_factor := farming_multiplier ft, location_factor := 1
                          weather_factor := 1, image_factor := 1 } } := by
    unfold predict_yield_completed
    simp [get_location_yield_factor, get_weather_yield_factor, mul_one]
  refine ⟨?_, ?_, rfl, rfl, rfl, rfl, ?_⟩
  · intro ha
    unfold predict_yield
    rw [h]
    dsimp only
    rcases ha with ha | ha
    · rw [ha]
      exact hcompleted
    · rw [ha]
      dsimp only
      rw [if_pos rfl]
      exact hcompleted
  · intro y hy hy0
    unfold predict_yield
    rw [h]
    dsimp only
    rw [hy]
    dsimp only
    rw [if_neg hy0]
  · intro h1 h2 h3 h4
    unfold farming_multiplier
    rw [if_neg (by simpa using h1), if_neg (by simpa using h2), if_neg (by simpa using h3),
      if_neg (by simpa using h4)]

/-- Witness for C8: the amended statement instantiated at the completing
scenario (no stored average yield, so base 10, land 5, hydroponic), evaluated
to `predicted_yield = 75` and `yield_per_acre = 15`, and at a crop with stored
average yield 10, which degrades to the error dict. -/
theorem yield_estimation_spec_witness :
    predict_yield { crops := fun _ => some ⟨none, none, none⟩, recentPrices := fun _ => [] }
        1 5 "hydroponic" "Pune" [] =
      { predicted_yield := 75, yield_per_acre := some 15, confidence := 7/10
        factors := some { farming_type_factor := 3/2, location_factor := 1
                          weather_factor := 1, image_factor := 1 } } ∧
    predict_yield { crops := fun _ => some ⟨some 10, none, none⟩, recentPrices := fun _ => [] }
        1 5 "hydroponic" "Pune" []
      = { predicted_yield := 0, yield_per_acre := none, confidence := 0
          factors := none } := by
  constructor
  · have h := (yield_estimation_spec
      { crops := fun _ => some ⟨none, none, none⟩, recentPrices := fun _ => [] }
      1 5 "hydroponic" "Pune" ⟨none, none, none⟩ rfl).1 (Or.inl rfl)
    have hm : farming_multiplier "hydroponic" = 3/2 := rfl
    rw [h, hm]
    norm_num [pyRound, roundHalfEven]
  · exact (yield_estimation_spec
      { crops := fun _ => some ⟨some 10, none, none⟩, recentPrices := fun _ => [] }
      1 5 "hydroponic" "Pune" ⟨some 10, none, none⟩ rfl).2.1 10 rfl (by norm_num)

/-- C9 counterexample: the fixed assessment carries `quality_score = 0.7`, not
the claimed 0.75, and a one-element recommendation list, not the claimed
two-element list. -/
theorem quality_default_counterexample :
    (assess_quality none).quality_score = 7/10 ∧ (7/10 : ℚ) ≠ 3/4 ∧
    (assess_quality none).recommendations.length = 1 ∧ (1 : ℕ) ≠ 2 :=
  ⟨rfl, by norm_num, rfl, by norm_num⟩

/-- C9 (amended): `assess_quality` ignores its input and always returns the
fixed assessment with quality and ripeness scores 0.7, quality grade
`grade_for(0.7) = B+`, health indicators `{0.7, 0.7, 0.3}` and the single
recommendation "Manual assessment recommended." — and no `method` tag. -/
theorem quality_default_assessment (img : Option String) :
    assess_quality img =
      { quality_score := 7/10, ripeness_score := 7/10
        quality_grade := score_to_grade (7/10)
        health_indicators := { color_uniformity := 7/10, size_consistency := 7/10
                               defect_level := 3/10 }
        recommendations := ["Manual assessment recommended."] } := by
  norm_num [assess_quality, fallback_assessment, score_to_grade]

/-- C10 counterexample: `grade_for(0.8999) = "A"` (since `0.8999 ≥ 0.8`), not
the claimed "B+". -/
theorem grade_boundary_counterexample :
    score_to_grade (8999/10000) = "A" ∧ ("A" : String) ≠ "B+" :=
  ⟨by norm_num [score_to_grade], by simp⟩

/-- C10 (amended): the grade mapping is the monotonic step function with
inclusive lower bounds 0.9 → A+, 0.8 → A, 0.7 → B+, 0.6 → B, else C, and the
boundary vectors hold with `0.8999 → "A"` in place of the claimed "B+". -/
theorem grade_mapping_spec (s : ℚ) :
    (9/10 ≤ s → score_to_grade s = "A+") ∧
    (8/10 ≤ s → s < 9/10 → score_to_grade s = "A") ∧
    (7/10 ≤ s → s < 8/10 → score_to_grade s = "B+") ∧
    (6/10 ≤ s → s < 7/10 → score_to_grade s = "B") ∧
    (s < 6/10 → score_to_grade s = "C") ∧
    score_to_grade (9/10) = "A+" ∧ score_to_grade (8999/10000) = "A" ∧
    score_to_grade (8/10) = "A" ∧ score_to_grade (7/10) = "B+" ∧
    score_to_grade (6/10) = "B" ∧ score_to_grade (59/100) = "C" := by
  refine ⟨?_, ?_, ?_, ?_, ?_, by norm_num [score_to_grade], by norm_num [score_to_grade],
    by norm_num [score_to_grade], by norm_num [score_to_grade], by norm_num [score_to_grade],
    by norm_num [score_to_grade]⟩
  · intro h1
    unfold score_to_grade
    rw [if_pos h1]
  · intro h1 h2
    unfold score_to_grade
    rw [if_neg (by simpa using not_le.mpr h2), if_pos h1]
  · intro h1 h2
    unfold score_to_grade
    rw [if_neg (by simpa using not_le.mpr (by linarith : s < 9/10)),
      if_neg (by simpa using not_le.mpr h2), if_pos h1]
  · intro h1 h2
    unfold score_to_grade
    rw [if_neg (by simpa using not_le.mpr (by linarith : s < 9/10)),
      if_neg (by simpa using not_le.mpr (by linarith : s < 8/10)),
      if_neg (by simpa using not_le.mpr h2), if_pos h1]
  · intro h1
    unfold score_to_grade
    rw [if_neg (by simpa using not_le.mpr (by linarith : s < 9/10)),
      if_neg (by simpa using not_le.mpr (by linarith : s < 8/10)),
      if_neg (by simpa using not_le.mpr (by linarith : s < 7/10)),
      if_neg (by simpa using not_le.mpr h1)]

/-- Witness for C10: the amended mapping instantiated at score 0.85. -/
theorem grade_mapping_spec_witness : score_to_grade (85/100) = "A" :=
  (grade_mapping_spec (85/100)).2.1 (by norm_num) (by norm_num)
